import Mathlib

/-!
# Verification of the camera worker processes

Shallow embedding of `src/backend/src/hand-detection.py` and
`src/backend/src/pose-detection.py`: the crop/geometry transform, the
geometric classifiers (V-gesture, full-body visibility, stop condition,
back view), and the length-prefixed binary message loop.

Python floats are modelled as rationals (`ℚ`), Python ints as `ℤ`/`Nat`,
byte strings as `List Nat`, and fallible operations (list indexing inside
`try`/`except`) as `Option`-valued computations.
-/

namespace Camera

/-- Python `int()` applied to a real value: truncation toward zero. -/
def truncQ (q : ℚ) : ℤ := if 0 ≤ q then ⌊q⌋ else ⌈q⌉

/-- A crop descriptor (`crop_info` / `roi_info`): four normalized values
describing a sub-rectangle of the source image. -/
structure CropInfo where
  offsetX : ℚ
  offsetY : ℚ
  scaleX : ℚ
  scaleY : ℚ
deriving DecidableEq, Repr

/-- The crop-rectangle computation of `HandDetector.process_frame`
(hand-detection.py lines 127-141) and `PoseDetector.process_frame`
(pose-detection.py lines 305-319): raw pixel bounds by truncation, then
clamping `x1,y1` into `[0, dim-1]` and `x2,y2` into `[x1+1, width]` /
`[y1+1, height]`. -/
def cropRect (width height : ℤ) (c : CropInfo) : ℤ × ℤ × ℤ × ℤ :=
  let x1r := truncQ (c.offsetX * width)
  let y1r := truncQ (c.offsetY * height)
  let x2r := truncQ ((c.offsetX + c.scaleX) * width)
  let y2r := truncQ ((c.offsetY + c.scaleY) * height)
  let x1 := max 0 (min x1r (width - 1))
  let y1 := max 0 (min y1r (height - 1))
  let x2 := max (x1 + 1) (min x2r width)
  let y2 := max (y1 + 1) (min y2r height)
  (x1, y1, x2, y2)

/-- Modelled from the spec: the remap-mode coordinate transform. The
repository's remap-mode worker variant is not among the provided source
files (the provided binary worker, hand-detection.py lines 163-172,
deliberately operates in crop-as-frame mode and leaves coordinates
untouched); the spec defines remap mode as
`x_full = offsetX + x_crop * scaleX`, `y_full = offsetY + y_crop * scaleY`. -/
def remapLandmark (c : CropInfo) (p : ℚ × ℚ) : ℚ × ℚ :=
  (c.offsetX + p.1 * c.scaleX, c.offsetY + p.2 * c.scaleY)

/-- A body-pose landmark as consumed by the PoseDetector classifiers:
normalized position plus a visibility confidence. -/
structure Landmark where
  x : ℚ
  y : ℚ
  z : ℚ
  visibility : ℚ
deriving DecidableEq, Repr

/-- MediaPipe PoseLandmark indices of `PoseDetector.key_landmarks`
(pose-detection.py lines 42-52): NOSE, LEFT_SHOULDER, RIGHT_SHOULDER,
LEFT_HIP, RIGHT_HIP, LEFT_KNEE, RIGHT_KNEE, LEFT_ANKLE, RIGHT_ANKLE. -/
def keyLandmarkIds : List Nat := [0, 11, 12, 23, 24, 25, 26, 27, 28]

/-- MediaPipe PoseLandmark indices of `PoseDetector.left_side_landmarks`
(lines 55-62): LEFT_EYE, LEFT_EAR, LEFT_SHOULDER, LEFT_WRIST, LEFT_HIP,
LEFT_KNEE. -/
def leftSideIds : List Nat := [2, 7, 11, 15, 23, 25]

/-- MediaPipe PoseLandmark indices of `PoseDetector.right_side_landmarks`
(lines 65-72): RIGHT_EYE, RIGHT_EAR, RIGHT_SHOULDER, RIGHT_WRIST,
RIGHT_HIP, RIGHT_KNEE. -/
def rightSideIds : List Nat := [5, 8, 12, 16, 24, 26]

/-- The scan loop of `check_full_body_visible` (lines 87-93): over the key
landmark ids, count landmarks with visibility > 0.7 and sum the visibility
of exactly those landmarks. `none` models an IndexError (landmark list too
short), which the surrounding `try` turns into the failure return. -/
def fullBodyScan (lms : List Landmark) : Option (Nat × ℚ) :=
  keyLandmarkIds.foldlM
    (fun acc i => (lms.get? i).map
      (fun lm => if lm.visibility > 7/10 then (acc.1 + 1, acc.2 + lm.visibility) else acc))
    ((0 : Nat), (0 : ℚ))

/-- `PoseDetector.check_full_body_visible` (lines 74-105) on an actual
landmark list. (The Python `if not landmarks` guard fires only for a `None`
argument — a protobuf landmark-list message is always truthy — so it is not
part of the list-level function.) Returns `(is_full_body, avg_confidence)`;
the visibility threshold comparison `visible_count >= 9 * 0.8` is decided
against the rational value 36/5 = 7.2. Any IndexError inside the scan is
caught and becomes `(false, 0)`. -/
def check_full_body_visible (lms : List Landmark) : Bool × ℚ :=
  match fullBodyScan lms with
  | none => (false, 0)
  | some (cnt, tot) => (decide ((36/5 : ℚ) ≤ (cnt : ℚ)), tot / 9)

/-- The per-side scan loop of `check_stop_condition` (lines 117-128): count
landmarks among `ids` with visibility < 0.3; `none` models an IndexError. -/
def countInvisible (lms : List Landmark) (ids : List Nat) : Option Nat :=
  ids.foldlM
    (fun acc i => (lms.get? i).map
      (fun lm => if lm.visibility < 3/10 then acc + 1 else acc))
    (0 : Nat)

/-- `PoseDetector.check_stop_condition` (lines 107-150). The argument is
`Option (List Landmark)`: `none` is a Python `None` (`if not landmarks:
return True`). A side is gone when its invisible count equals the side's
subset size (6); stop iff either side is gone; any IndexError inside the
`try` yields `true`. -/
def check_stop_condition (olms : Option (List Landmark)) : Bool :=
  match olms with
  | none => true
  | some lms =>
    match countInvisible lms leftSideIds, countInvisible lms rightSideIds with
    | some l, some r => decide (l = 6) || decide (r = 6)
    | _, _ => true

/-- MediaPipe PoseLandmark indices of the `front_landmarks` list of
`detect_back_view` (lines 162-174), in source order: NOSE, LEFT_EYE,
RIGHT_EYE, LEFT_EYE_INNER, RIGHT_EYE_INNER, LEFT_EYE_OUTER,
RIGHT_EYE_OUTER, LEFT_EAR, RIGHT_EAR, MOUTH_LEFT, MOUTH_RIGHT. -/
def frontIds : List Nat := [0, 2, 5, 1, 4, 3, 6, 7, 8, 9, 10]

/-- MediaPipe PoseLandmark indices of the `back_landmarks` list of
`detect_back_view` (lines 177-182): LEFT_SHOULDER, RIGHT_SHOULDER,
LEFT_HIP, RIGHT_HIP. -/
def backIds : List Nat := [11, 12, 23, 24]

/-- The visibility-sum loops of `detect_back_view` (lines 185-202);
`none` models an IndexError raised while indexing the landmark list. -/
def visibilitySum (lms : List Landmark) (ids : List Nat) : Option ℚ :=
  ids.foldlM (fun acc i => (lms.get? i).map (fun lm => acc + lm.visibility)) (0 : ℚ)

/-- The `reason` string of a back-view result: `no_landmarks`, the
`front_vis:{f:.2f}_back_vis:{b:.2f}` diagnostic (modelled as carrying the
two exact averages), or the `error:{...}` tag of the except branch. -/
inductive BackViewReason where
  | no_landmarks
  | vis_tags (front back : ℚ)
  | error
deriving DecidableEq, Repr

/-- The result dict of `detect_back_view`; the error and no-landmark
returns omit the two component averages, hence `Option ℚ`. -/
structure BackViewResult where
  is_back_view : Bool
  confidence : ℚ
  front_visibility : Option ℚ
  back_visibility : Option ℚ
  reason : BackViewReason
deriving DecidableEq, Repr

/-- `PoseDetector.detect_back_view` (lines 152-227). `none` argument is a
Python `None` (the `if not landmarks` guard). Averages divide by the loop
counts, which are always 11 and 4; confidence is
`(1 - front_avg) * 0.7 + back_avg * 0.3`, back view iff confidence > 0.6.
Any IndexError is caught and becomes the error result. -/
def detect_back_view (olms : Option (List Landmark)) : BackViewResult :=
  match olms with
  | none => ⟨false, 0, none, none, .no_landmarks⟩
  | some lms =>
    match visibilitySum lms frontIds, visibilitySum lms backIds with
    | some fs, some bs =>
      let favg := fs / 11
      let bavg := bs / 4
      let conf := (1 - favg) * (7/10) + bavg * (3/10)
      ⟨decide (conf > 3/5), conf, some favg, some bavg, .vis_tags favg bavg⟩
    | _, _ => ⟨false, 0, none, none, .error⟩

/-- A hand landmark as consumed by `detect_v_gesture`: a dict with
normalized x, y, z (hand landmarks carry no visibility). -/
structure HandLandmark where
  x : ℚ
  y : ℚ
  z : ℚ
deriving DecidableEq, Repr

/-- `HandDetector.detect_v_gesture` (hand-detection.py lines 40-82).
Landmarks 4, 8, 5, 12, 9, 16, 13, 20, 17 (thumb tip, index tip/MCP,
middle tip/MCP, ring tip/MCP, pinky tip/MCP) are fetched inside a `try`;
any IndexError yields `false`. V-gesture iff index and middle extended
(tip.y < mcp.y) and ring and pinky folded (tip.y ≥ mcp.y). -/
def detect_v_gesture (lms : List HandLandmark) : Bool :=
  match lms.get? 4, lms.get? 8, lms.get? 5, lms.get? 12, lms.get? 9,
        lms.get? 16, lms.get? 13, lms.get? 20, lms.get? 17 with
  | some _thumb_tip, some index_tip, some index_mcp, some middle_tip, some middle_mcp,
    some ring_tip, some ring_mcp, some pinky_tip, some pinky_mcp =>
      decide (index_tip.y < index_mcp.y) && decide (middle_tip.y < middle_mcp.y) &&
      decide (ring_tip.y ≥ ring_mcp.y) && decide (pinky_tip.y ≥ pinky_mcp.y)
  | _, _, _, _, _, _, _, _, _ => false

/-- The header object recovered from `json.loads` on the header bytes:
the fields `main` reads via `header.get(...)`. `none` models an absent
field. The `config` object is modelled as a key-value list of the numeric
thresholds. -/
structure Header where
  type? : Option String
  format? : Option String
  data_length? : Option Nat
  crop_info? : Option CropInfo
  roi_info? : Option CropInfo
  config? : Option (List (String × ℚ))
deriving DecidableEq, Repr

/-- The outcome of `json.loads(header_bytes.decode('utf-8'))` inside the
loop's `try`: `ok` when both steps succeed; `jsonError` when the bytes
decode as UTF-8 but `json.loads` raises a `JSONDecodeError` — the only
exception the inner handler catches; `unicodeError` when
`header_bytes.decode('utf-8')` itself raises a `UnicodeDecodeError`, which
no inner handler catches, so it escapes to the outer
`except Exception` of `main`. -/
inductive HeaderParse where
  | ok (h : Header)
  | jsonError
  | unicodeError
deriving DecidableEq, Repr

/-- One JSON line written (with flush) by `main`. `frameResult` abstracts
the `process_frame` response: it records everything the response depends
on (active detector config, the image bytes, and the crop/roi descriptors);
`fatalError` is the `\x7b"error": "Fatal error: ..."\x7d` line of the outer
`except Exception` handler, after which the process calls `sys.exit(1)` —
it is always the last output and ends the loop with a nonzero exit status;
the other constructors are the fixed error/status lines. -/
inductive Output where
  | invalidHeaderJson
  | incompleteImageData
  | emptyImageData
  | failedDecodeImage
  | frameResult (cfg : List (String × ℚ)) (img : List Nat) (crop roi : Option CropInfo)
  | pong
  | configUpdated
  | unknownCommand (t : Option String)
  | fatalError
deriving DecidableEq, Repr

/-- The external functions `main` calls: the UTF-8 decode plus `json.loads`
on the header bytes (abstracted to a `HeaderParse` outcome) and
`cv2.imdecode` success (`false` when decoding returns `None`). -/
structure Env where
  parseHeader : List Nat → HeaderParse
  decodeOk : List Nat → Bool

/-- `int.from_bytes(bs, 'little')`. -/
def leNat : List Nat → Nat
  | [] => 0
  | b :: rest => b + 256 * leNat rest

/-- The 4 little-endian bytes of a length `n < 2^32`. -/
def leBytes4 (n : Nat) : List Nat :=
  [n % 256, n / 256 % 256, n / 256 ^ 2 % 256, n / 256 ^ 3 % 256]

/-- The read loop of `main` (hand-detection.py lines 213-291;
pose-detection.py lines 383-461 is identical for the modelled behaviour,
minus `roi_info`). The stream is a finite byte list; `read(n)` is
`take n` (short exactly when the stream is exhausted); `fuel` bounds the
number of iterations; `cfg` is the active detector configuration.
Each iteration: read 4 length bytes (break if short), read `L` header
bytes (break if empty or short — so a zero length prefix breaks), parse
the header (error line + continue on a caught JSONDecodeError; fatal line
+ exit on an uncaught UnicodeDecodeError), then dispatch on `type`:
`process_frame`+`format == binary` reads `data_length` payload bytes and
answers (or emits the matching error line); `process_frame` without
binary format answers nothing; `ping`, `config` and unknown types answer
their fixed lines. -/
def run (env : Env) (cfg : List (String × ℚ)) : Nat → List Nat → List Output
  | 0, _ => []
  | fuel + 1, s =>
    let hlb := s.take 4
    if hlb.length < 4 then []
    else
      let L := leNat hlb
      let hb := (s.drop 4).take L
      if hb.isEmpty || hb.length < L then []
      else
        let s2 := (s.drop 4).drop L
        match env.parseHeader hb with
        | .unicodeError => [.fatalError]
        | .jsonError => .invalidHeaderJson :: run env cfg fuel s2
        | .ok h =>
          if h.type? = some "process_frame" then
            if h.format? = some "binary" then
              let dl := h.data_length?.getD 0
              let ib := s2.take dl
              let s3 := s2.drop dl
              if ib.length < dl then .incompleteImageData :: run env cfg fuel s3
              else if ib.isEmpty then .emptyImageData :: run env cfg fuel s3
              else if env.decodeOk ib then
                .frameResult cfg ib h.crop_info? h.roi_info? :: run env cfg fuel s3
              else .failedDecodeImage :: run env cfg fuel s3
            else run env cfg fuel s2
          else if h.type? = some "ping" then .pong :: run env cfg fuel s2
          else if h.type? = some "config" then
            .configUpdated :: run env (h.config?.getD []) fuel s2
          else .unknownCommand h.type? :: run env cfg fuel s2

/-- Reference form of the visible-count of `check_full_body_visible`: the
number of key landmarks whose visibility exceeds 0.7. -/
def keyVisibleCount (lms : List Landmark) : Nat :=
  ((keyLandmarkIds.filterMap lms.get?).filter (fun lm => lm.visibility > 7/10)).length

/-- Reference form of the accumulated confidence of
`check_full_body_visible`: the visibility sum over only the key landmarks
whose visibility exceeds 0.7. -/
def keyVisibleSum (lms : List Landmark) : ℚ :=
  (((keyLandmarkIds.filterMap lms.get?).filter (fun lm => lm.visibility > 7/10)).map
    (fun lm => lm.visibility)).sum

/-- The full-body confidence as claim C4 words it: the mean visibility
over the entire 9-point key subset, not just over the points that passed
the 0.7 threshold. Stated from the claim, for comparison with the code. -/
def claimFullBodyConfidence (lms : List Landmark) : ℚ :=
  ((keyLandmarkIds.filterMap lms.get?).map (fun lm => lm.visibility)).sum / 9

/-- Reference form of `front_avg_visibility` of `detect_back_view`: mean
visibility over the 11-point front subset (the loop counter is always 11). -/
def frontAvg (lms : List Landmark) : ℚ :=
  ((frontIds.filterMap lms.get?).map (fun lm => lm.visibility)).sum / 11

/-- Reference form of `back_avg_visibility` of `detect_back_view`: mean
visibility over the 4-point back subset (the loop counter is always 4). -/
def backAvg (lms : List Landmark) : ℚ :=
  ((backIds.filterMap lms.get?).map (fun lm => lm.visibility)).sum / 4

/-- 29 pose landmarks: the nose (index 0) at visibility 0.5, the other
eight key landmarks at 0.71, everything else at 0. -/
def demoPoseLms : List Landmark :=
  (List.range 29).map (fun i =>
    if i = 0 then ⟨0, 0, 0, 1/2⟩
    else if i = 11 ∨ i = 12 ∨ i = 23 ∨ i = 24 ∨ i = 25 ∨ i = 26 ∨ i = 27 ∨ i = 28 then
      ⟨0, 0, 0, 71/100⟩
    else ⟨0, 0, 0, 0⟩)

/-- 27 pose landmarks: the six left-side landmarks at visibility 0.1,
everything else at 1. -/
def demoStopLms : List Landmark :=
  (List.range 27).map (fun i =>
    if i = 2 ∨ i = 7 ∨ i = 11 ∨ i = 15 ∨ i = 23 ∨ i = 25 then ⟨0, 0, 0, 1/10⟩
    else ⟨0, 0, 0, 1⟩)

/-- 25 pose landmarks: the 11 front-subset landmarks (indices 0-10) at
visibility 0.1, the 4 back-subset landmarks at 0.9, everything else at 0. -/
def demoBackLms : List Landmark :=
  (List.range 25).map (fun i =>
    if i ≤ 10 then ⟨0, 0, 0, 1/10⟩
    else if i = 11 ∨ i = 12 ∨ i = 23 ∨ i = 24 then ⟨0, 0, 0, 9/10⟩
    else ⟨0, 0, 0, 0⟩)

/-- 21 hand landmarks forming a V gesture: index and middle tips (8, 12)
above their MCPs (5, 9); ring and pinky tips (16, 20) below theirs. -/
def demoHandLms : List HandLandmark :=
  (List.range 21).map (fun i =>
    if i = 8 ∨ i = 12 then ⟨0, 1/10, 0⟩
    else if i = 5 ∨ i = 9 then ⟨0, 1/2, 0⟩
    else ⟨0, 9/10, 0⟩)

/-- A concrete header JSON line for the truncated-payload scenario:
`\x7b"type": "process_frame", "format": "binary", "data_length": 5\x7d`. -/
def demoHeaderStr : String :=
  "\x7b\"type\": \"process_frame\", \"format\": \"binary\", \"data_length\": 5\x7d"

/-- The UTF-8 bytes of `demoHeaderStr` (encoded characterwise with the
standard UTF-8 character encoding). -/
def demoHeaderBytes : List Nat :=
  (demoHeaderStr.data.flatMap String.utf8EncodeChar).map (fun b => b.toNat)

/-- The header object `json.loads` recovers from `demoHeaderStr`. -/
def demoHeader : Header :=
  ⟨some "process_frame", some "binary", some 5, none, none, none⟩

/-- A concrete environment for the truncated-payload scenario: the JSON
decoder recognizes exactly `demoHeaderBytes` (as `demoHeader`); image
decoding always fails, which is irrelevant because the scenario stops
before any decode. -/
def demoEnv : Env :=
  ⟨fun bs => if bs = demoHeaderBytes then .ok demoHeader else .jsonError,
   fun _ => false⟩

/-- A stream carrying one `process_frame` message whose header declares
`data_length = 5` but which is followed by only 3 payload bytes before the
stream ends. -/
def demoStream : List Nat :=
  leBytes4 demoHeaderBytes.length ++ demoHeaderBytes ++ [1, 2, 3]

/-- The header JSON of a `ping` message:
`\x7b"type": "ping"\x7d`. -/
def pingHeaderStr : String := "\x7b\"type\": \"ping\"\x7d"

/-- The UTF-8 bytes of `pingHeaderStr`. -/
def pingHeaderBytes : List Nat :=
  (pingHeaderStr.data.flatMap String.utf8EncodeChar).map (fun b => b.toNat)

/-- The header object `json.loads` recovers from `pingHeaderStr`. -/
def pingHeader : Header := ⟨some "ping", none, none, none, none, none⟩

/-- Environment for the invalid-UTF-8 header scenario: the single byte
0xFF fails UTF-8 decoding (0xFF can appear nowhere in valid UTF-8), so
`header_bytes.decode('utf-8')` raises a `UnicodeDecodeError`; the ping
header parses; other inputs are immaterial to the traced stream. -/
def demoUtf8Env : Env :=
  ⟨fun bs =>
    if bs = [255] then .unicodeError
    else if bs = pingHeaderBytes then .ok pingHeader
    else .jsonError,
   fun _ => false⟩

/-- A stream whose first message carries the single header byte 0xFF
(framed with length prefix 1) and whose second message is a well-formed
ping. -/
def demoUtf8Stream : List Nat :=
  leBytes4 1 ++ [255] ++ (leBytes4 pingHeaderBytes.length ++ pingHeaderBytes)

end Camera

namespace Camera

/-- C1: for every image of width ≥ 1 and height ≥ 1 and every crop
descriptor of finite (rational) values, the truncated-then-clamped pixel
rectangle satisfies `0 ≤ x1 < x2 ≤ width` and `0 ≤ y1 < y2 ≤ height`. -/
theorem cropRect_bounds (width height : ℤ) (c : CropInfo)
    (hw : 1 ≤ width) (hh : 1 ≤ height) :
    0 ≤ (cropRect width height c).1 ∧
    (cropRect width height c).1 < (cropRect width height c).2.2.1 ∧
    (cropRect width height c).2.2.1 ≤ width ∧
    0 ≤ (cropRect width height c).2.1 ∧
    (cropRect width height c).2.1 < (cropRect width height c).2.2.2 ∧
    (cropRect width height c).2.2.2 ≤ height := by
  unfold cropRect
  dsimp only
  omega

/-- Round trip of the 4-byte little-endian length encoding. -/
theorem leNat_leBytes4 (n : Nat) (h : n < 2 ^ 32) : leNat (leBytes4 n) = n := by
  simp only [leBytes4, leNat]
  omega

/-- The loop emits nothing on an exhausted stream. -/
theorem run_nil (env : Env) (cfg : List (String × ℚ)) (fuel : Nat) :
    run env cfg fuel [] = [] := by
  cases fuel <;> simp [run]

/-- One framed message splits off the front of the stream: the length
prefix, the header bytes, and the remaining stream. -/
theorem run_succ_split (env : Env) (cfg : List (String × ℚ)) (fuel L : Nat)
    (hb rest : List Nat) (hL : hb.length = L) (hpos : 0 < L) (hsize : L < 2 ^ 32) :
    run env cfg (fuel + 1) (leBytes4 L ++ hb ++ rest)
      = (match env.parseHeader hb with
        | .unicodeError => [Output.fatalError]
        | .jsonError => Output.invalidHeaderJson :: run env cfg fuel rest
        | .ok h =>
          if h.type? = some "process_frame" then
            if h.format? = some "binary" then
              let dl := h.data_length?.getD 0
              let ib := rest.take dl
              let s3 := rest.drop dl
              if ib.length < dl then Output.incompleteImageData :: run env cfg fuel s3
              else if ib.isEmpty then Output.emptyImageData :: run env cfg fuel s3
              else if env.decodeOk ib then
                Output.frameResult cfg ib h.crop_info? h.roi_info? :: run env cfg fuel s3
              else Output.failedDecodeImage :: run env cfg fuel s3
            else run env cfg fuel rest
          else if h.type? = some "ping" then Output.pong :: run env cfg fuel rest
          else if h.type? = some "config" then
            Output.configUpdated :: run env (h.config?.getD []) fuel rest
          else Output.unknownCommand h.type? :: run env cfg fuel rest) := by
  have h4 : (leBytes4 L).length = 4 := rfl
  have htake4 : (leBytes4 L ++ (hb ++ rest)).take 4 = leBytes4 L := by
    rw [← h4]; exact List.take_left _ _
  have hdrop4 : (leBytes4 L ++ (hb ++ rest)).drop 4 = hb ++ rest := by
    rw [← h4]; exact List.drop_left _ _
  have htakeL : (hb ++ rest).take L = hb := by
    rw [← hL]; exact List.take_left _ _
  have hdropL : (hb ++ rest).drop L = rest := by
    rw [← hL]; exact List.drop_left _ _
  have hne : hb.isEmpty = false := by
    cases hb with
    | nil => simp at hL; omega
    | cons a t => rfl
  simp only [run, List.append_assoc, htake4, hdrop4, h4, htakeL, hdropL,
    leNat_leBytes4 L hsize, hne, hL]
  simp

/-- C8, counterexample: the 1-byte header `0xFF` is not valid JSON (it is
not even valid UTF-8), yet the worker does not emit an error response for
that message and continue: the `UnicodeDecodeError` raised by
`header_bytes.decode('utf-8')` escapes the `json.JSONDecodeError` handler,
so the worker prints one fatal-error line and exits with nonzero status —
the well-formed ping message that follows in the stream is never
processed. -/
theorem invalid_utf8_header_counterexample :
    run demoUtf8Env [] 5 demoUtf8Stream = [Output.fatalError] ∧
    run demoUtf8Env [] 5 demoUtf8Stream
      ≠ [Output.invalidHeaderJson, Output.pong] := by
  exact ⟨by decide, by decide⟩

/-- C8, amended: when the fully read `L` header bytes decode as UTF-8 but
are not valid JSON, the worker emits exactly one error response for that
message and continues the read loop, resuming at the byte immediately
after the `L` consumed header bytes (no payload bytes consumed, framing
synchronized); but when the header bytes are not valid UTF-8, the
`UnicodeDecodeError` escapes the JSON handler: the worker prints a single
fatal-error line and exits with nonzero status, processing no further
messages. -/
theorem header_parse_failure_paths (env : Env) (cfg : List (String × ℚ))
    (fuel L : Nat) (hb rest : List Nat) (hL : hb.length = L) (hpos : 0 < L)
    (hsize : L < 2 ^ 32) :
    (env.parseHeader hb = .jsonError →
      run env cfg (fuel + 1) (leBytes4 L ++ hb ++ rest)
        = Output.invalidHeaderJson :: run env cfg fuel rest) ∧
    (env.parseHeader hb = .unicodeError →
      run env cfg (fuel + 1) (leBytes4 L ++ hb ++ rest) = [Output.fatalError]) := by
  constructor
  · intro hparse
    rw [run_succ_split env cfg fuel L hb rest hL hpos hsize, hparse]
  · intro hparse
    rw [run_succ_split env cfg fuel L hb rest hL hpos hsize, hparse]

/-- Witness for the amended C8: one UTF-8-decodable but malformed 1-byte
header (the ASCII byte 65, `A`, which is not a JSON document) framed with
its length prefix yields exactly the invalid-JSON error line, and the
exhausted rest of the stream ends the loop. -/
theorem header_parse_failure_paths_witness :
    run ⟨fun _ => .jsonError, fun _ => true⟩ [] 1 (leBytes4 1 ++ [65] ++ [])
      = [Output.invalidHeaderJson] :=
  (header_parse_failure_paths ⟨fun _ => .jsonError, fun _ => true⟩ [] 0 1 [65] []
    rfl (by decide) (by decide)).1 rfl

/-- C9: a well-framed `process_frame` message whose `format` is absent or
not `binary` produces no response at all; the loop proceeds directly to
the rest of the stream, leaving any payload bytes unconsumed. -/
theorem nonbinary_frame_silent (env : Env) (cfg : List (String × ℚ)) (fuel L : Nat)
    (hb rest : List Nat) (h : Header) (hL : hb.length = L) (hpos : 0 < L)
    (hsize : L < 2 ^ 32) (hparse : env.parseHeader hb = .ok h)
    (htype : h.type? = some "process_frame") (hfmt : h.format? ≠ some "binary") :
    run env cfg (fuel + 1) (leBytes4 L ++ hb ++ rest) = run env cfg fuel rest := by
  rw [run_succ_split env cfg fuel L hb rest hL hpos hsize, hparse]
  simp [htype, hfmt]

/-- Witness for C9: a concrete `process_frame` header with no `format`
field is skipped silently, leaving the following bytes in place. -/
theorem nonbinary_frame_silent_witness :
    run ⟨fun _ => .ok ⟨some "process_frame", none, some 3, none, none, none⟩,
        fun _ => true⟩ [] 1 (leBytes4 1 ++ [65] ++ [7, 7, 7]) = [] :=
  nonbinary_frame_silent _ [] 0 1 [65] [7, 7, 7]
    ⟨some "process_frame", none, some 3, none, none, none⟩ rfl (by decide)
    (by decide) rfl rfl (by decide)

/-- C3, counterexample: on a stream whose `process_frame` header declares
`data_length = 5` but which ends after 3 payload bytes, the loop does emit
a response line for the partial message (the `Incomplete image data` error),
contradicting "emitting no response line for that partial message". -/
theorem truncated_payload_counterexample :
    run demoEnv [] 2 demoStream = [Output.incompleteImageData] ∧
    run demoEnv [] 2 demoStream ≠ [] := by
  constructor
  · decide
  · decide

/-- C3, amended: when a `process_frame` message's header declares
`data_length` but fewer payload bytes remain before the stream ends, the
worker emits exactly one `Incomplete image data` error response for that
message and continues the loop, which then terminates at the next
length-prefix read against the exhausted stream. -/
theorem truncated_payload_error (env : Env) (cfg : List (String × ℚ))
    (fuel L : Nat) (hb rest : List Nat) (h : Header) (hL : hb.length = L)
    (hpos : 0 < L) (hsize : L < 2 ^ 32) (hparse : env.parseHeader hb = .ok h)
    (htype : h.type? = some "process_frame") (hfmt : h.format? = some "binary")
    (hshort : rest.length < h.data_length?.getD 0) :
    run env cfg (fuel + 2) (leBytes4 L ++ hb ++ rest)
      = [Output.incompleteImageData] := by
  rw [show fuel + 2 = (fuel + 1) + 1 by omega,
    run_succ_split env cfg (fuel + 1) L hb rest hL hpos hsize, hparse]
  have hlen : (rest.take (h.data_length?.getD 0)).length < h.data_length?.getD 0 := by
    simp only [List.length_take]
    omega
  have hdrop : rest.drop (h.data_length?.getD 0) = [] := by
    apply List.drop_eq_nil_of_le
    omega
  simp only [htype, hfmt, if_true]
  rw [if_pos hlen, hdrop, run_nil]

/-- Witness for the amended C3, applying it to the concrete truncated
stream of the counterexample scenario. -/
theorem truncated_payload_error_witness :
    run demoEnv [] 2 demoStream = [Output.incompleteImageData] := by
  have h := truncated_payload_error demoEnv [] 0 demoHeaderBytes.length
    demoHeaderBytes [1, 2, 3] demoHeader rfl (by decide) (by decide)
    (by simp [demoEnv]) rfl rfl (by decide)
  simpa [demoStream] using h

/-- C10: a message whose 4-byte length prefix is zero terminates the loop
immediately with no output, whatever bytes follow. -/
theorem zero_length_prefix_terminates (env : Env) (cfg : List (String × ℚ))
    (fuel : Nat) (rest : List Nat) :
    run env cfg fuel (leBytes4 0 ++ rest) = [] := by
  cases fuel with
  | zero => simp [run]
  | succ n =>
    cases rest <;> simp [run, leBytes4, leNat]

/-- C2: the remap-mode coordinate transform (modelled from the spec) maps
a crop-space landmark `(x, y)` to `(offsetX + x * scaleX, offsetY + y * scaleY)`;
in particular `(0, 0)` goes to `(offsetX, offsetY)` and `(1, 1)` to
`(offsetX + scaleX, offsetY + scaleY)`. -/
theorem remapLandmark_spec (c : CropInfo) (x y : ℚ) :
    remapLandmark c (x, y) = (c.offsetX + x * c.scaleX, c.offsetY + y * c.scaleY) ∧
    remapLandmark c (0, 0) = (c.offsetX, c.offsetY) ∧
    remapLandmark c (1, 1) = (c.offsetX + c.scaleX, c.offsetY + c.scaleY) := by
  refine ⟨rfl, ?_, ?_⟩ <;> simp [remapLandmark]

/-- The count-and-sum scan of `check_full_body_visible`, computed in
closed form when every index is in range. -/
theorem fullBodyScan_fold (lms : List Landmark) :
    ∀ ids : List Nat, (∀ i ∈ ids, i < lms.length) → ∀ acc : Nat × ℚ,
      ids.foldlM
        (fun a i => (lms.get? i).map
          (fun lm => if lm.visibility > 7/10 then (a.1 + 1, a.2 + lm.visibility) else a)) acc
      = some
        (acc.1 + ((ids.filterMap lms.get?).filter (fun lm => lm.visibility > 7/10)).length,
         acc.2 + (((ids.filterMap lms.get?).filter (fun lm => lm.visibility > 7/10)).map
           (fun lm => lm.visibility)).sum) := by
  intro ids
  induction ids with
  | nil => intro _ acc; simp
  | cons i ids ih =>
    intro h acc
    have hi : i < lms.length := h i (List.mem_cons_self ..)
    have hlm : lms.get? i = some (lms.get ⟨i, hi⟩) := List.get?_eq_get hi
    have hrest : ∀ j ∈ ids, j < lms.length := fun j hj => h j (List.mem_cons_of_mem _ hj)
    by_cases hv : (lms.get ⟨i, hi⟩).visibility > 7/10
    · have hfc : (lms.get ⟨i, hi⟩ :: List.filterMap lms.get? ids).filter
            (fun lm => lm.visibility > 7/10)
          = lms.get ⟨i, hi⟩ :: (List.filterMap lms.get? ids).filter
            (fun lm => lm.visibility > 7/10) :=
        List.filter_cons_of_pos (by simpa using hv)
      simp only [List.foldlM_cons, hlm, Option.map_some', Option.bind_eq_bind,
        Option.some_bind, if_pos hv, ih hrest, List.filterMap_cons_some hlm,
        hfc, List.length_cons, List.map_cons,
        List.sum_cons, Option.some.injEq, Prod.mk.injEq]
      exact ⟨by omega, by ring⟩
    · have hfc : (lms.get ⟨i, hi⟩ :: List.filterMap lms.get? ids).filter
            (fun lm => lm.visibility > 7/10)
          = (List.filterMap lms.get? ids).filter (fun lm => lm.visibility > 7/10) :=
        List.filter_cons_of_neg (by simpa using hv)
      simp only [List.foldlM_cons, hlm, Option.map_some', Option.bind_eq_bind,
        Option.some_bind, if_neg hv, ih hrest, List.filterMap_cons_some hlm, hfc]

/-- The per-side invisible-count scan of `check_stop_condition`, computed
in closed form when every index is in range. -/
theorem countInvisible_fold (lms : List Landmark) :
    ∀ ids : List Nat, (∀ i ∈ ids, i < lms.length) → ∀ acc : Nat,
      ids.foldlM
        (fun a i => (lms.get? i).map
          (fun lm => if lm.visibility < 3/10 then a + 1 else a)) acc
      = some (acc + ((ids.filterMap lms.get?).filter
          (fun lm => lm.visibility < 3/10)).length) := by
  intro ids
  induction ids with
  | nil => intro _ acc; simp
  | cons i ids ih =>
    intro h acc
    have hi : i < lms.length := h i (List.mem_cons_self ..)
    have hlm : lms.get? i = some (lms.get ⟨i, hi⟩) := List.get?_eq_get hi
    have hrest : ∀ j ∈ ids, j < lms.length := fun j hj => h j (List.mem_cons_of_mem _ hj)
    by_cases hv : (lms.get ⟨i, hi⟩).visibility < 3/10
    · have hfc : (lms.get ⟨i, hi⟩ :: List.filterMap lms.get? ids).filter
            (fun lm => lm.visibility < 3/10)
          = lms.get ⟨i, hi⟩ :: (List.filterMap lms.get? ids).filter
            (fun lm => lm.visibility < 3/10) :=
        List.filter_cons_of_pos (by simpa using hv)
      simp only [List.foldlM_cons, hlm, Option.map_some', Option.bind_eq_bind,
        Option.some_bind, if_pos hv, ih hrest, List.filterMap_cons_some hlm,
        hfc, List.length_cons, Option.some.injEq]
      omega
    · have hfc : (lms.get ⟨i, hi⟩ :: List.filterMap lms.get? ids).filter
            (fun lm => lm.visibility < 3/10)
          = (List.filterMap lms.get? ids).filter (fun lm => lm.visibility < 3/10) :=
        List.filter_cons_of_neg (by simpa using hv)
      simp only [List.foldlM_cons, hlm, Option.map_some', Option.bind_eq_bind,
        Option.some_bind, if_neg hv, ih hrest, List.filterMap_cons_some hlm, hfc]

/-- The visibility-sum scan of `detect_back_view`, computed in closed form
when every index is in range. -/
theorem visibilitySum_fold (lms : List Landmark) :
    ∀ ids : List Nat, (∀ i ∈ ids, i < lms.length) → ∀ acc : ℚ,
      ids.foldlM (fun a i => (lms.get? i).map (fun lm => a + lm.visibility)) acc
      = some (acc + ((ids.filterMap lms.get?).map (fun lm => lm.visibility)).sum) := by
  intro ids
  induction ids with
  | nil => intro _ acc; simp
  | cons i ids ih =>
    intro h acc
    have hi : i < lms.length := h i (List.mem_cons_self ..)
    have hlm : lms.get? i = some (lms.get ⟨i, hi⟩) := List.get?_eq_get hi
    have hrest : ∀ j ∈ ids, j < lms.length := fun j hj => h j (List.mem_cons_of_mem _ hj)
    simp only [List.foldlM_cons, hlm, Option.map_some', Option.bind_eq_bind,
      Option.some_bind, ih hrest, List.filterMap_cons_some hlm, List.map_cons,
      List.sum_cons, Option.some.injEq]
    ring

/-- An integer count reaches the real-valued threshold 9 * 0.8 = 7.2
exactly when it reaches 8. -/
theorem count_threshold (n : Nat) : ((36/5 : ℚ) ≤ (n : ℚ)) ↔ 8 ≤ n := by
  constructor
  · intro hq
    by_contra hc
    push_neg at hc
    have h7 : (n : ℚ) ≤ 7 := by exact_mod_cast Nat.le_of_lt_succ hc
    linarith
  · intro hn
    have h8 : (8 : ℚ) ≤ (n : ℚ) := by exact_mod_cast hn
    linarith

/-- Indexing a list at in-range indices drops nothing. -/
theorem filterMap_get?_length {α : Type} (l : List α) :
    ∀ ids : List Nat, (∀ i ∈ ids, i < l.length) →
      (ids.filterMap l.get?).length = ids.length := by
  intro ids
  induction ids with
  | nil => intro _; rfl
  | cons i ids ih =>
    intro h
    have hi : i < l.length := h i (List.mem_cons_self ..)
    have hlm : l.get? i = some (l.get ⟨i, hi⟩) := List.get?_eq_get hi
    rw [List.filterMap_cons_some hlm, List.length_cons,
      ih (fun j hj => h j (List.mem_cons_of_mem _ hj)), List.length_cons]

/-- C5: the stop classifier returns true for an absent (`None`) landmark
list and for an empty one; on a list covering all used indices it stops
iff a whole side is invisible: a side is gone iff every one of its six
landmarks has visibility below 0.3, a single left-side landmark at or
above 0.3 prevents the left side from being gone, and an internal error
in either side scan resolves to stop = true. -/
theorem check_stop_condition_spec (lms : List Landmark) (h : 27 ≤ lms.length) :
    check_stop_condition none = true ∧
    check_stop_condition (some []) = true ∧
    (check_stop_condition (some lms) = true ↔
      countInvisible lms leftSideIds = some 6 ∨
      countInvisible lms rightSideIds = some 6) ∧
    (countInvisible lms leftSideIds = some 6 ↔
      ∀ lm ∈ leftSideIds.filterMap lms.get?, lm.visibility < 3/10) ∧
    (countInvisible lms rightSideIds = some 6 ↔
      ∀ lm ∈ rightSideIds.filterMap lms.get?, lm.visibility < 3/10) ∧
    (∀ i ∈ leftSideIds, ∀ lm, lms.get? i = some lm → 3/10 ≤ lm.visibility →
      countInvisible lms leftSideIds ≠ some 6) ∧
    (∀ lms2 : List Landmark,
      countInvisible lms2 leftSideIds = none ∨
        countInvisible lms2 rightSideIds = none →
      check_stop_condition (some lms2) = true) := by
  have hidsL : ∀ i ∈ leftSideIds, i < lms.length := by
    intro i hi
    simp only [leftSideIds, List.mem_cons, List.not_mem_nil, or_false] at hi
    rcases hi with rfl | rfl | rfl | rfl | rfl | rfl <;> omega
  have hidsR : ∀ i ∈ rightSideIds, i < lms.length := by
    intro i hi
    simp only [rightSideIds, List.mem_cons, List.not_mem_nil, or_false] at hi
    rcases hi with rfl | rfl | rfl | rfl | rfl | rfl <;> omega
  have hcl : countInvisible lms leftSideIds
      = some (((leftSideIds.filterMap lms.get?).filter
          (fun lm => lm.visibility < 3/10)).length) := by
    unfold countInvisible
    rw [countInvisible_fold lms leftSideIds hidsL 0]
    simp
  have hcr : countInvisible lms rightSideIds
      = some (((rightSideIds.filterMap lms.get?).filter
          (fun lm => lm.visibility < 3/10)).length) := by
    unfold countInvisible
    rw [countInvisible_fold lms rightSideIds hidsR 0]
    simp
  have hlenL : (leftSideIds.filterMap lms.get?).length = 6 :=
    filterMap_get?_length lms leftSideIds hidsL
  have hlenR : (rightSideIds.filterMap lms.get?).length = 6 :=
    filterMap_get?_length lms rightSideIds hidsR
  have hiffL : countInvisible lms leftSideIds = some 6 ↔
      ∀ lm ∈ leftSideIds.filterMap lms.get?, lm.visibility < 3/10 := by
    rw [hcl, Option.some.injEq, ← hlenL, List.filter_length_eq_length]
    simp
  have hiffR : countInvisible lms rightSideIds = some 6 ↔
      ∀ lm ∈ rightSideIds.filterMap lms.get?, lm.visibility < 3/10 := by
    rw [hcr, Option.some.injEq, ← hlenR, List.filter_length_eq_length]
    simp
  refine ⟨rfl, rfl, ?_, hiffL, hiffR, ?_, ?_⟩
  · simp only [check_stop_condition, hcl, hcr, Bool.or_eq_true, decide_eq_true_eq,
      Option.some.injEq]
  · intro i hi lm hlm hge hc6
    have hmem : lm ∈ leftSideIds.filterMap lms.get? :=
      List.mem_filterMap.mpr ⟨i, hi, hlm⟩
    exact absurd (hiffL.mp hc6 lm hmem) (not_lt.mpr hge)
  · intro lms2 hnone
    rcases hone : countInvisible lms2 leftSideIds with _ | l
    · simp [check_stop_condition, hone]
    · rcases htwo : countInvisible lms2 rightSideIds with _ | r
      · simp [check_stop_condition, hone, htwo]
      · rcases hnone with hn | hn
        · rw [hone] at hn
          exact absurd hn (by simp)
        · rw [htwo] at hn
          exact absurd hn (by simp)

/-- Witness for C5: on 27 landmarks whose six left-side points sit at
visibility 0.1 while all others sit at 1, the classifier stops. -/
theorem check_stop_condition_spec_witness :
    check_stop_condition (some demoStopLms) = true :=
  ((check_stop_condition_spec demoStopLms (by decide)).2.2.1).mpr
    (Or.inl (of_decide_eq_true (by with_unfolding_all rfl)))

/-- C6: on a landmark list covering all used indices, the back-view
classifier reports the mean visibilities of the 11-point front subset and
4-point back subset, confidence `(1 - front_avg) * 0.7 + back_avg * 0.3`,
and back view iff confidence exceeds 0.6; a `None` landmark list gives the
no-landmarks result, and an internal error in either visibility scan gives
the error-tagged result with `is_back_view = false` and confidence 0. -/
theorem detect_back_view_spec (lms : List Landmark) (h : 25 ≤ lms.length) :
    (detect_back_view (some lms)).front_visibility = some (frontAvg lms) ∧
    (detect_back_view (some lms)).back_visibility = some (backAvg lms) ∧
    (detect_back_view (some lms)).confidence
      = (1 - frontAvg lms) * (7/10) + backAvg lms * (3/10) ∧
    (detect_back_view (some lms)).is_back_view
      = decide ((1 - frontAvg lms) * (7/10) + backAvg lms * (3/10) > 3/5) ∧
    (detect_back_view (some lms)).reason
      = BackViewReason.vis_tags (frontAvg lms) (backAvg lms) ∧
    detect_back_view none = ⟨false, 0, none, none, .no_landmarks⟩ ∧
    (∀ lms2 : List Landmark,
      visibilitySum lms2 frontIds = none ∨ visibilitySum lms2 backIds = none →
      detect_back_view (some lms2) = ⟨false, 0, none, none, .error⟩) := by
  have hidsF : ∀ i ∈ frontIds, i < lms.length := by
    intro i hi
    simp only [frontIds, List.mem_cons, List.not_mem_nil, or_false] at hi
    rcases hi with rfl | rfl | rfl | rfl | rfl | rfl | rfl | rfl | rfl | rfl | rfl <;> omega
  have hidsB : ∀ i ∈ backIds, i < lms.length := by
    intro i hi
    simp only [backIds, List.mem_cons, List.not_mem_nil, or_false] at hi
    rcases hi with rfl | rfl | rfl | rfl <;> omega
  have hf : visibilitySum lms frontIds
      = some (((frontIds.filterMap lms.get?).map (fun lm => lm.visibility)).sum) := by
    unfold visibilitySum
    rw [visibilitySum_fold lms frontIds hidsF 0]
    simp
  have hb : visibilitySum lms backIds
      = some (((backIds.filterMap lms.get?).map (fun lm => lm.visibility)).sum) := by
    unfold visibilitySum
    rw [visibilitySum_fold lms backIds hidsB 0]
    simp
  refine ⟨?_, ?_, ?_, ?_, ?_, rfl, ?_⟩
  · simp only [detect_back_view, hf, hb, frontAvg]
  · simp only [detect_back_view, hf, hb, backAvg]
  · simp only [detect_back_view, hf, hb, frontAvg, backAvg]
  · simp only [detect_back_view, hf, hb, frontAvg, backAvg]
  · simp only [detect_back_view, hf, hb, frontAvg, backAvg]
  · intro lms2 hnone
    rcases hone : visibilitySum lms2 frontIds with _ | fs
    · simp [detect_back_view, hone]
    · rcases htwo : visibilitySum lms2 backIds with _ | bs
      · simp [detect_back_view, hone, htwo]
      · rcases hnone with hn | hn
        · rw [hone] at hn
          exact absurd hn (by simp)
        · rw [htwo] at hn
          exact absurd hn (by simp)

/-- Witness for C6 at the claim's example figures: front average 0.1 and
back average 0.9 give confidence 0.9 and a positive back-view flag. -/
theorem detect_back_view_spec_witness :
    (detect_back_view (some demoBackLms)).is_back_view = true ∧
    (detect_back_view (some demoBackLms)).confidence = 9/10 := by
  have hs := detect_back_view_spec demoBackLms (by decide)
  constructor
  · rw [hs.2.2.2.1]
    with_unfolding_all rfl
  · rw [hs.2.2.1]
    with_unfolding_all rfl

/-- C7: on a hand landmark list containing all indexed landmarks, the
V-gesture classifier returns true iff index and middle tips are above
their MCP joints (smaller y) while ring and pinky tips are not; any list
too short for one of the indexed landmarks yields false. -/
theorem detect_v_gesture_spec (lms : List HandLandmark) (h : 21 ≤ lms.length) :
    (detect_v_gesture lms = true ↔
      ((lms.get ⟨8, by omega⟩).y < (lms.get ⟨5, by omega⟩).y ∧
       (lms.get ⟨12, by omega⟩).y < (lms.get ⟨9, by omega⟩).y ∧
       (lms.get ⟨16, by omega⟩).y ≥ (lms.get ⟨13, by omega⟩).y ∧
       (lms.get ⟨20, by omega⟩).y ≥ (lms.get ⟨17, by omega⟩).y)) ∧
    (∀ lms2 : List HandLandmark, lms2.length < 21 →
      detect_v_gesture lms2 = false) := by
  constructor
  · have e4 : lms[4]? = some lms[4] := List.getElem?_eq_getElem (by omega)
    have e8 : lms[8]? = some lms[8] := List.getElem?_eq_getElem (by omega)
    have e5 : lms[5]? = some lms[5] := List.getElem?_eq_getElem (by omega)
    have e12 : lms[12]? = some lms[12] := List.getElem?_eq_getElem (by omega)
    have e9 : lms[9]? = some lms[9] := List.getElem?_eq_getElem (by omega)
    have e16 : lms[16]? = some lms[16] := List.getElem?_eq_getElem (by omega)
    have e13 : lms[13]? = some lms[13] := List.getElem?_eq_getElem (by omega)
    have e20 : lms[20]? = some lms[20] := List.getElem?_eq_getElem (by omega)
    have e17 : lms[17]? = some lms[17] := List.getElem?_eq_getElem (by omega)
    simp [detect_v_gesture, e4, e8, e5, e12, e9, e16, e13, e20, e17,
      Bool.and_eq_true, decide_eq_true_eq, and_assoc]
  · intro lms2 hlen
    have h20 : lms2[20]? = none := by
      rw [List.getElem?_eq_none_iff]
      omega
    cases h4 : lms2[4]? with
    | none => simp [detect_v_gesture, h4]
    | some a4 =>
      cases h8 : lms2[8]? with
      | none => simp [detect_v_gesture, h4, h8]
      | some a8 =>
        cases h5 : lms2[5]? with
        | none => simp [detect_v_gesture, h4, h8, h5]
        | some a5 =>
          cases h12 : lms2[12]? with
          | none => simp [detect_v_gesture, h4, h8, h5, h12]
          | some a12 =>
            cases h9 : lms2[9]? with
            | none => simp [detect_v_gesture, h4, h8, h5, h12, h9]
            | some a9 =>
              cases h16 : lms2[16]? with
              | none => simp [detect_v_gesture, h4, h8, h5, h12, h9, h16]
              | some a16 =>
                cases h13 : lms2[13]? with
                | none => simp [detect_v_gesture, h4, h8, h5, h12, h9, h16, h13]
                | some a13 =>
                  simp [detect_v_gesture, h4, h8, h5, h12, h9, h16, h13, h20]

/-- Witness for C7: a concrete 21-landmark V-hand (index and middle tips
above their MCPs, ring and pinky tips below) is classified as a V. -/
theorem detect_v_gesture_spec_witness :
    detect_v_gesture demoHandLms = true :=
  ((detect_v_gesture_spec demoHandLms (by decide)).1).mpr
    ⟨of_decide_eq_true (by with_unfolding_all rfl),
     of_decide_eq_true (by with_unfolding_all rfl),
     of_decide_eq_true (by with_unfolding_all rfl),
     of_decide_eq_true (by with_unfolding_all rfl)⟩

/-- C4, counterexample: on a landmark list whose nose has visibility 0.5
and whose other eight key landmarks have visibility 0.71, the classifier
returns full-body-visible (8 of 9 pass the 0.7 threshold) but its returned
confidence is not the mean visibility over the entire 9-point subset: the
0.5 of the nose is left out of the accumulated sum. -/
theorem full_body_confidence_counterexample :
    (check_full_body_visible demoPoseLms).1 = true ∧
    (check_full_body_visible demoPoseLms).2 ≠ claimFullBodyConfidence demoPoseLms :=
  ⟨of_decide_eq_true (by with_unfolding_all rfl),
   of_decide_eq_true (by with_unfolding_all rfl)⟩

/-- C4, amended: the classifier returns full-body-visible iff at least 8 of
the 9 key landmarks have visibility > 0.7 (count ≥ 7.2), and the confidence
returned alongside is the visibility sum over only the key landmarks that
passed the 0.7 threshold, divided by the full subset size 9. -/
theorem check_full_body_visible_amended (lms : List Landmark)
    (h : 29 ≤ lms.length) :
    check_full_body_visible lms
      = (decide (8 ≤ keyVisibleCount lms), keyVisibleSum lms / 9) := by
  have hids : ∀ i ∈ keyLandmarkIds, i < lms.length := by
    intro i hi
    simp only [keyLandmarkIds, List.mem_cons, List.not_mem_nil, or_false] at hi
    rcases hi with rfl | rfl | rfl | rfl | rfl | rfl | rfl | rfl | rfl <;> omega
  have hfold := fullBodyScan_fold lms keyLandmarkIds hids (0, 0)
  unfold check_full_body_visible fullBodyScan
  rw [hfold]
  simp only [keyVisibleCount, keyVisibleSum, Nat.zero_add, zero_add]
  congr 1
  rw [decide_eq_decide]
  exact count_threshold _

/-- Witness for the amended C4 at the concrete landmark list of the
counterexample scenario. -/
theorem check_full_body_visible_amended_witness :
    check_full_body_visible demoPoseLms
      = (decide (8 ≤ keyVisibleCount demoPoseLms), keyVisibleSum demoPoseLms / 9) :=
  check_full_body_visible_amended demoPoseLms (by decide)

/-- Witness for C1: the bounds hold at the concrete instance
width = height = 10, crop descriptor (-1/3, 1/2, 2, 1/4). -/
theorem cropRect_bounds_witness :
    0 ≤ (cropRect 10 10 ⟨-1/3, 1/2, 2, 1/4⟩).1 ∧
    (cropRect 10 10 ⟨-1/3, 1/2, 2, 1/4⟩).1 < (cropRect 10 10 ⟨-1/3, 1/2, 2, 1/4⟩).2.2.1 ∧
    (cropRect 10 10 ⟨-1/3, 1/2, 2, 1/4⟩).2.2.1 ≤ 10 ∧
    0 ≤ (cropRect 10 10 ⟨-1/3, 1/2, 2, 1/4⟩).2.1 ∧
    (cropRect 10 10 ⟨-1/3, 1/2, 2, 1/4⟩).2.1 < (cropRect 10 10 ⟨-1/3, 1/2, 2, 1/4⟩).2.2.2 ∧
    (cropRect 10 10 ⟨-1/3, 1/2, 2, 1/4⟩).2.2.2 ≤ 10 :=
  cropRect_bounds 10 10 ⟨-1/3, 1/2, 2, 1/4⟩ (by decide) (by decide)

end Camera
